import Mathlib

/-!
Verification of the borrowing/return/fee lifecycle core of a library
management system. The definitions below are a shallow embedding of the
module services/library_service.py. Timestamps are modelled as integer
seconds; a day is 86400 seconds. Monetary amounts are modelled as exact
rationals: every fee the code computes is an exact multiple of 0.50
(first*0.50 + rest*1.00 capped at 15.00 with first, rest integers), and
such values are represented exactly by Python floats and left unchanged
by round(fee, 2), so the rational model is exact.

The storage layer (module database, an external collaborator of the core)
is modelled from the specification: a state holding the Book and
BorrowRecord tables, with each mutating operation able to report failure,
which is represented by a DbFlags oracle saying which mutations succeed.
-/

/-- A row of the books table. -/
structure Book where
  id : Int
  title : String
  author : String
  isbn : String
  total_copies : Int
  available_copies : Int
deriving Repr, DecidableEq

/-- A row of the borrow_records table. due_date is optional so that a
record with no resolvable due date can be represented. -/
structure BorrowRecord where
  patron_id : String
  book_id : Int
  borrow_date : Int
  due_date : Option Int
  return_date : Option Int
deriving Repr, DecidableEq

/-- Modelled from the spec: the Data Access Interface state, the Book and
BorrowRecord entities the CRUD operations act on. -/
structure LibraryState where
  books : List Book
  records : List BorrowRecord
deriving Repr, DecidableEq

/-- Modelled from the spec: which mutating storage operations succeed.
Each mutating operation of the Data Access Interface returns a boolean
success flag; the flags say what each one reports during one service
call. -/
structure DbFlags where
  insert_ok : Bool
  update_avail_ok : Bool
  update_return_ok : Bool
deriving Repr, DecidableEq

/-- All storage mutations succeed. -/
def allOk : DbFlags := ⟨true, true, true⟩

/-- A record is the active (not yet returned) loan of book b by patron p. -/
def recordActiveFor (p : String) (b : Int) (r : BorrowRecord) : Bool :=
  r.patron_id == p && r.book_id == b && r.return_date == none

/-- Modelled from the spec: getBookById returns the book with the given
id, if any. -/
def get_book_by_id (st : LibraryState) (book_id : Int) : Option Book :=
  st.books.find? (fun b => b.id == book_id)

/-- The active borrow record for a patron and book (library_service,
function get_borrow_record): the first record with this patron_id and
book_id whose return_date is null. -/
def get_borrow_record (st : LibraryState) (p : String) (b : Int) :
    Option BorrowRecord :=
  st.records.find? (recordActiveFor p b)

/-- Modelled from the spec: getPatronBorrowCount returns the number of
active loans of the patron. -/
def get_patron_borrow_count (st : LibraryState) (p : String) : Nat :=
  (st.records.filter
    (fun r => r.patron_id == p && r.return_date == none)).length

/-- Modelled from the spec: updateBookAvailability(bookId, delta) adds
delta to available_copies of the book with the given id. -/
def update_book_availability (st : LibraryState) (b : Int) (delta : Int) :
    LibraryState :=
  { st with books := st.books.map (fun bk =>
      if bk.id == b then
        { bk with available_copies := bk.available_copies + delta }
      else bk) }

/-- Modelled from the spec: updateBorrowRecordReturnDate sets return_date
on the active borrow records of the given patron and book. -/
def update_borrow_record_return_date (st : LibraryState) (p : String)
    (b : Int) (ret : Int) : LibraryState :=
  { st with records := st.records.map (fun r =>
      if recordActiveFor p b r then { r with return_date := some ret }
      else r) }

/-- Modelled from the spec: insertBorrowRecord appends a new open record
with the given borrow date and due date. -/
def insert_borrow_record (st : LibraryState) (p : String) (b : Int)
    (borrow due : Int) : LibraryState :=
  { st with records := st.records ++
      [{ patron_id := p, book_id := b, borrow_date := borrow,
         due_date := some due, return_date := none }] }

/-- Patron id validation used by every operation: non-empty, all digits,
exactly 6 characters. -/
def patronIdOk (p : String) : Bool :=
  !p.isEmpty && p.data.all (fun c => c.isDigit) && p.length == 6

/-- A fee quote: amount in dollars (exact rational) and whole days
overdue. -/
structure FeeQuote where
  fee_amount : ℚ
  days_overdue : Int
deriving Repr, DecidableEq

/-- Rounding to 2 decimal places. On the values the fee formula produces
the argument times 100 is an integer, so this is the identity there and
agrees with the Python round function. -/
def round2 (q : ℚ) : ℚ := (round (q * 100) : ℚ) / 100

/-- The fee computation core of calculate_late_fee_for_book, from the due
date it read out of the borrow record. Python timedelta days truncates
toward minus infinity, which Int.fdiv models. -/
def feeFromDue (due : Option Int) (now : Int) : FeeQuote :=
  match due with
  | none => ⟨0, 0⟩
  | some d =>
    let days_overdue := max 0 ((now - d).fdiv 86400)
    let first := min days_overdue 7
    let rest := max 0 (days_overdue - 7)
    let fee := min ((first : ℚ) * 0.5 + (rest : ℚ) * 1) 15
    ⟨round2 fee, days_overdue⟩

/-- library_service.calculate_late_fee_for_book with the borrow record
and evaluation instant supplied by the caller; the record lookup of its
optional-argument path is done by each call site below, as in the source.
Only the due_date field of the record is read. -/
def calculate_late_fee_for_book (rec : Option BorrowRecord) (now : Int) :
    FeeQuote :=
  feeFromDue (rec.bind (fun r => r.due_date)) now

/-- Result of a borrow or return call: success flag, message, and the
storage state after the call. -/
structure OpResult where
  ok : Bool
  msg : String
  state : LibraryState
deriving Repr, DecidableEq

/-- Render a non-negative exact-cents amount with two decimals, as the
Python format .2f does on such values. -/
def money2 (q : ℚ) : String :=
  let c := round (q * 100)
  let r := c % 100
  toString (c / 100) ++ "." ++
    (if r < 10 then "0" ++ toString r else toString r)

/-- library_service.borrow_book_by_patron. The book_id argument is an
integer by type, so the isinstance check of the source always passes
here. now is the instant the call reads from the clock. -/
def borrow_book_by_patron (fl : DbFlags) (st : LibraryState)
    (patron_id : String) (book_id : Int) (now : Int) : OpResult :=
  if !patronIdOk patron_id then
    ⟨false, "Invalid patron ID. Must be exactly 6 digits.", st⟩
  else
    match get_book_by_id st book_id with
    | none => ⟨false, "Book not found.", st⟩
    | some book =>
      if book.available_copies ≤ 0 then
        ⟨false, "This book is currently not available.", st⟩
      else if 5 ≤ get_patron_borrow_count st patron_id then
        ⟨false, "You have reached the maximum borrowing limit of 5 books.", st⟩
      else if (get_borrow_record st patron_id book_id).isSome then
        ⟨false, "You already have this book checked out.", st⟩
      else
        let due := now + 14 * 86400
        if !fl.insert_ok then
          ⟨false, "Database error occurred while creating borrow record.", st⟩
        else
          let st1 := insert_borrow_record st patron_id book_id now due
          if !fl.update_avail_ok then
            let st2 :=
              if fl.update_return_ok then
                update_borrow_record_return_date st1 patron_id book_id now
              else st1
            ⟨false, "Database error occurred while updating book availability.",
              st2⟩
          else
            ⟨true, "Successfully borrowed \"" ++ book.title ++
              "\". Due date: " ++ toString due ++ ".",
              update_book_availability st1 book_id (-1)⟩

/-- library_service.return_book_by_patron. In the source a book_id of 0
is falsy and rejected as invalid; a missing book whose id prints with 13
characters gets the ISBN hint message. -/
def return_book_by_patron (fl : DbFlags) (st : LibraryState)
    (patron_id : String) (book_id : Int) (now : Int) : OpResult :=
  if !patronIdOk patron_id then
    ⟨false, "Invalid patron ID. Must be exactly 6 digits.", st⟩
  else if book_id == 0 then
    ⟨false, "Invalid book ID.", st⟩
  else
    match get_book_by_id st book_id with
    | none =>
      if (toString book_id).length == 13 then
        ⟨false, "Book not found by ISBN. Did you mean to search by ID?", st⟩
      else ⟨false, "Book not found.", st⟩
    | some book =>
      match get_borrow_record st patron_id book_id with
      | none =>
        ⟨false, "No active borrow record found for this patron and book.", st⟩
      | some rec =>
        let fee := calculate_late_fee_for_book (some rec) now
        if !fl.update_return_ok then
          ⟨false, "Database error occurred while marking return.", st⟩
        else
          let st1 := update_borrow_record_return_date st patron_id book_id now
          if !fl.update_avail_ok then
            ⟨false, "Database error occurred while updating book availability.",
              st1⟩
          else
            let st2 := update_book_availability st1 book_id 1
            if 0 < fee.fee_amount then
              ⟨true, "Book returned: \"" ++ book.title ++ "\". Late fee: $" ++
                money2 fee.fee_amount ++ " (" ++ toString fee.days_overdue ++
                " days overdue).", st2⟩
            else
              ⟨true, "Book returned: \"" ++ book.title ++ "\". No late fee.",
                st2⟩

/-- Outcome of the external payment gateway processPayment call: a
reported success with a transaction id, a reported business failure, or a
raised fault. -/
inductive PayGatewayOutcome
  | ok (txn : String) (msg : String)
  | declined (msg : String)
  | fault (msg : String)
deriving Repr, DecidableEq

/-- Outcome of the external payment gateway refundPayment call. -/
inductive RefundGatewayOutcome
  | ok (msg : String)
  | declined (msg : String)
  | fault (msg : String)
deriving Repr, DecidableEq

/-- Result of pay_late_fees: success flag, message, transaction id, the
number of gateway invocations the call made, and the storage state after
the call. -/
structure PayResult where
  ok : Bool
  msg : String
  txn : Option String
  gatewayCalls : Nat
  state : LibraryState
deriving Repr, DecidableEq

/-- Result of refund_late_fee_payment. -/
structure RefundResult where
  ok : Bool
  msg : String
  gatewayCalls : Nat
  state : LibraryState
deriving Repr, DecidableEq

/-- library_service.pay_late_fees. The fee is computed from the active
borrow record of the patron and book, as the two-argument call of
calculate_late_fee_for_book in the source does (a missing record behaves
as an empty record and quotes a zero fee). The source branch for a fee
dictionary without a fee_amount key is unreachable, since
calculate_late_fee_for_book always returns one. -/
def pay_late_fees (st : LibraryState)
    (gateway : String → ℚ → String → PayGatewayOutcome)
    (patron_id : String) (book_id : Int) (now : Int) : PayResult :=
  if !patronIdOk patron_id then
    ⟨false, "Invalid patron ID. Must be exactly 6 digits.", none, 0, st⟩
  else
    let fee_info :=
      calculate_late_fee_for_book (get_borrow_record st patron_id book_id) now
    if fee_info.fee_amount ≤ 0 then
      ⟨false, "No late fees to pay for this book.", none, 0, st⟩
    else
      match get_book_by_id st book_id with
      | none => ⟨false, "Book not found.", none, 0, st⟩
      | some book =>
        match gateway patron_id fee_info.fee_amount
            ("Late fees for \x27" ++ book.title ++ "\x27") with
        | .ok txn msg => ⟨true, "Payment successful! " ++ msg, some txn, 1, st⟩
        | .declined msg => ⟨false, "Payment failed: " ++ msg, none, 1, st⟩
        | .fault msg =>
          ⟨false, "Payment processing error: " ++ msg, none, 1, st⟩

/-- The transaction-id format test of the source, the Python startswith
call, done on the character list. -/
def strStartsWith (s t : String) : Bool :=
  t.data.isPrefixOf s.data

/-- library_service.refund_late_fee_payment. -/
def refund_late_fee_payment (st : LibraryState)
    (gateway : String → ℚ → RefundGatewayOutcome)
    (transaction_id : String) (amount : ℚ) : RefundResult :=
  if transaction_id.isEmpty || !strStartsWith transaction_id "txn_" then
    ⟨false, "Invalid transaction ID.", 0, st⟩
  else if amount ≤ 0 then
    ⟨false, "Refund amount must be greater than 0.", 0, st⟩
  else if 15 < amount then
    ⟨false, "Refund amount exceeds maximum late fee.", 0, st⟩
  else
    match gateway transaction_id amount with
    | .ok msg => ⟨true, msg, 1, st⟩
    | .declined msg => ⟨false, "Refund failed: " ++ msg, 1, st⟩
    | .fault msg => ⟨false, "Refund processing error: " ++ msg, 1, st⟩

/-- One active loan of the status report. -/
structure LoanView where
  book_id : Int
  title : String
  author : String
  borrow_date : Int
  due_date : Option Int
  is_overdue : Bool
  days_overdue : Int
  current_fee : ℚ
deriving Repr, DecidableEq

/-- One history row of the status report. -/
structure HistoryEntry where
  book_id : Int
  title : String
  author : String
  isbn : String
  borrow_date : Int
  due_date : Option Int
  return_date : Option Int
  days_overdue_at_end : Int
  late_fee_at_end : ℚ
deriving Repr, DecidableEq

/-- The status report. The source emits each field under a second alias
name as well (currently_borrowed, current_borrow_count,
total_late_fees_owed); the aliases carry the same values and are elided
here. -/
structure StatusReport where
  current_loans : List LoanView
  current_count : Nat
  total_late_fees : ℚ
  history : List HistoryEntry
deriving Repr, DecidableEq

/-- Modelled from the spec: getActiveBorrowsByPatron returns the active
borrow records of the patron, each joined with its book row. -/
def get_patron_borrowed_books (st : LibraryState) (p : String) :
    List (BorrowRecord × Book) :=
  (st.records.filter
    (fun r => r.patron_id == p && r.return_date == none)).filterMap
    (fun r => (get_book_by_id st r.book_id).map (fun b => (r, b)))

/-- The descending borrow_date order the history query asks for. -/
def borrowDesc (a b : BorrowRecord) : Prop :=
  b.borrow_date ≤ a.borrow_date

instance : DecidableRel borrowDesc := fun a b =>
  inferInstanceAs (Decidable (b.borrow_date ≤ a.borrow_date))

instance : IsTotal BorrowRecord borrowDesc :=
  ⟨fun a b => le_total b.borrow_date a.borrow_date⟩

instance : IsTrans BorrowRecord borrowDesc :=
  ⟨fun _ _ _ h1 h2 => le_trans h2 h1⟩

/-- The history query of get_patron_status_report: every record of the
patron, ordered by borrow_date descending, inner-joined with books. -/
def history_rows (st : LibraryState) (p : String) :
    List (BorrowRecord × Book) :=
  (List.insertionSort borrowDesc
    (st.records.filter (fun r => r.patron_id == p))).filterMap
    (fun r => (get_book_by_id st r.book_id).map (fun b => (r, b)))

/-- The active-loans list of the status report: for each active loan the
fee is recomputed through the two-argument calculate_late_fee_for_book
call of the source, which looks the active record up again. -/
def current_loans_of (st : LibraryState) (p : String) (now : Int) :
    List LoanView :=
  (get_patron_borrowed_books st p).map (fun rb =>
    let fee_info :=
      calculate_late_fee_for_book (get_borrow_record st p rb.1.book_id) now
    { book_id := rb.1.book_id, title := rb.2.title, author := rb.2.author,
      borrow_date := rb.1.borrow_date, due_date := rb.1.due_date,
      is_overdue := 0 < fee_info.days_overdue,
      days_overdue := fee_info.days_overdue,
      current_fee := fee_info.fee_amount })

/-- The history list of the report: one entry per joined history row,
with the end-of-period fee computed from the row due date against
return_date when the row is closed and against now otherwise. -/
def history_of (st : LibraryState) (p : String) (now : Int) :
    List HistoryEntry :=
  (history_rows st p).map (fun rb =>
    let endInstant := rb.1.return_date.getD now
    let fee_end := feeFromDue rb.1.due_date endInstant
    { book_id := rb.1.book_id, title := rb.2.title, author := rb.2.author,
      isbn := rb.2.isbn, borrow_date := rb.1.borrow_date,
      due_date := rb.1.due_date, return_date := rb.1.return_date,
      days_overdue_at_end := fee_end.days_overdue,
      late_fee_at_end := fee_end.fee_amount })

/-- library_service.get_patron_status_report. Returns none on an invalid
patron id (the source returns an error dictionary). -/
def get_patron_status_report (st : LibraryState) (p : String) (now : Int) :
    Option StatusReport :=
  if !patronIdOk p then none
  else
    some { current_loans := current_loans_of st p now,
           current_count := (current_loans_of st p now).length,
           total_late_fees := round2 (((current_loans_of st p now).map
             (fun x => x.current_fee)).sum),
           history := history_of st p now }

/-!
Claim-side definitions. Each of these follows the wording of the
specification or of a claim, to be compared with the source-side
definitions above.
-/

/-- The overdue-day count as the specification words it: whole days
between the evaluation instant and the due date, truncated toward zero,
floored at 0. -/
def specDaysOverdue (due now : Int) : Int :=
  max 0 ((now - due).tdiv 86400)

/-- The fee formula as the specification words it, over the claimed
overdue-day count. -/
def specLateFee (due now : Int) : ℚ :=
  let d := specDaysOverdue due now
  round2 (min ((min d 7 : ℚ) * 0.5 + (max 0 (d - 7) : ℚ) * 1) 15)

/-- The validation failures of the borrow operation, in the order the
specification lists the checks. -/
inductive BorrowError
  | invalidPatron
  | bookNotFound
  | bookUnavailable
  | borrowLimit
  | duplicateLoan
deriving Repr, DecidableEq

/-- The message the source reports for each validation failure. -/
def borrowErrorMsg : BorrowError → String
  | .invalidPatron => "Invalid patron ID. Must be exactly 6 digits."
  | .bookNotFound => "Book not found."
  | .bookUnavailable => "This book is currently not available."
  | .borrowLimit => "You have reached the maximum borrowing limit of 5 books."
  | .duplicateLoan => "You already have this book checked out."

/-- First failing check of the borrow operation, in the claimed order:
patron-id format, book existence, availability, loan limit, duplicate
active loan. none means every check passes. -/
def firstFailingCheck (st : LibraryState) (p : String) (b : Int) :
    Option BorrowError :=
  if !patronIdOk p then some .invalidPatron
  else
    match get_book_by_id st b with
    | none => some .bookNotFound
    | some book =>
      if book.available_copies ≤ 0 then some .bookUnavailable
      else if 5 ≤ get_patron_borrow_count st p then some .borrowLimit
      else if (get_borrow_record st p b).isSome then some .duplicateLoan
      else none

/-- sub occurs contiguously inside s. -/
def includesStr (s sub : String) : Prop :=
  sub.data <:+: s.data

instance (s sub : String) : Decidable (includesStr s sub) :=
  inferInstanceAs (Decidable (sub.data <:+: s.data))

/-- Number of active borrow records of the given book. -/
def activeCountBook (records : List BorrowRecord) (id : Int) : Nat :=
  records.countP (fun r => r.book_id == id && r.return_date == none)

/-- The validity condition as the claim words it: availability within
bounds and each missing copy matched by an active borrow record of the
book, that is, total minus available is at most the active-record
count. -/
def claimValid (st : LibraryState) : Prop :=
  ∀ b ∈ st.books, 0 ≤ b.available_copies ∧
    b.available_copies ≤ b.total_copies ∧
    b.total_copies - b.available_copies ≤ (activeCountBook st.records b.id : Int)

/-- The strengthened validity: book ids unique (as the data model
declares them), availability non-negative, and each active borrow record
of a book matched by a missing copy, that is, the active-record count is
at most total minus available. -/
def StateInv (st : LibraryState) : Prop :=
  (st.books.map (fun b => b.id)).Nodup ∧
  ∀ b ∈ st.books, 0 ≤ b.available_copies ∧
    (activeCountBook st.records b.id : Int) ≤ b.total_copies - b.available_copies

/-- Availability bounds alone: 0 ≤ available_copies ≤ total_copies. -/
def BoundsOk (st : LibraryState) : Prop :=
  ∀ b ∈ st.books, 0 ≤ b.available_copies ∧ b.available_copies ≤ b.total_copies

instance (st : LibraryState) : Decidable (claimValid st) := by
  unfold claimValid
  infer_instance

instance (st : LibraryState) : Decidable (StateInv st) := by
  unfold StateInv
  infer_instance

instance (st : LibraryState) : Decidable (BoundsOk st) := by
  unfold BoundsOk
  infer_instance

/-- One lifecycle operation together with the storage-failure behavior it
runs under and the instant it runs at. -/
inductive LibOp
  | borrow (fl : DbFlags) (p : String) (b : Int) (now : Int)
  | ret (fl : DbFlags) (p : String) (b : Int) (now : Int)

/-- Apply one operation to the state, keeping only the state. -/
def applyOp (st : LibraryState) : LibOp → LibraryState
  | .borrow fl p b now => (borrow_book_by_patron fl st p b now).state
  | .ret fl p b now => (return_book_by_patron fl st p b now).state

/-- Run a sequence of operations. -/
def runOps (st : LibraryState) : List LibOp → LibraryState
  | [] => st
  | op :: ops => runOps (applyOp st op) ops

/-- An operation whose storage failures the compensation logic covers: in
a borrow, the compensating return-date update must not fail while the
availability decrement fails. -/
def opCompensable : LibOp → Bool
  | .borrow fl _ _ _ => fl.update_avail_ok || fl.update_return_ok
  | .ret _ _ _ _ => true

/-!
Helper lemmas.
-/

/-- Floor division and truncating division agree on the overdue-day count
once it is floored at zero. -/
lemma maxDays_fdiv_eq_tdiv (x : Int) :
    max 0 (x.fdiv 86400) = max 0 (x.tdiv 86400) := by
  rcases le_or_lt 0 x with h | h
  · rw [Int.fdiv_eq_ediv _ (by norm_num), Int.tdiv_eq_ediv h (by norm_num)]
  · have h1 : x.fdiv 86400 ≤ 0 := by
      rw [Int.fdiv_eq_ediv _ (by norm_num)]; omega
    have h2 : x.tdiv 86400 ≤ 0 := by
      have hn : (0 : Int) ≤ (-x).tdiv 86400 :=
        Int.tdiv_nonneg (by omega) (by norm_num)
      rw [Int.neg_tdiv] at hn; omega
    omega

/-- C1: for every borrow record with a resolvable due date and every
evaluation instant, calculate_late_fee_for_book returns days_overdue =
max(0, whole days between the instants) truncated toward zero, and
fee_amount = min(min(daysOverdue,7)*0.50 + max(0,daysOverdue-7)*1.00,
15.00) rounded to 2 decimal places; with no resolvable due date it
returns fee_amount 0 and days_overdue 0. -/
theorem c1_late_fee_formula (r : BorrowRecord) (now : Int) :
    (∀ due, r.due_date = some due →
      (calculate_late_fee_for_book (some r) now).days_overdue =
        specDaysOverdue due now ∧
      (calculate_late_fee_for_book (some r) now).fee_amount =
        specLateFee due now) ∧
    (r.due_date = none →
      calculate_late_fee_for_book (some r) now = ⟨0, 0⟩) := by
  constructor
  · intro due h
    have hd := maxDays_fdiv_eq_tdiv (now - due)
    constructor
    · simp only [calculate_late_fee_for_book, Option.bind, h, feeFromDue,
        specDaysOverdue, hd]
    · simp only [calculate_late_fee_for_book, Option.bind, h, feeFromDue,
        specDaysOverdue, specLateFee, hd]
      push_cast
      ring_nf
  · intro h
    simp only [calculate_late_fee_for_book, Option.bind, h, feeFromDue]

/-- Witness for C1 at a record 10 days and 1 second overdue. -/
theorem c1_late_fee_formula_witness :
    (({ patron_id := "123456", book_id := 1, borrow_date := 0,
        due_date := some 0, return_date := none } : BorrowRecord).due_date =
      some 0) ∧
    (calculate_late_fee_for_book
        (some { patron_id := "123456", book_id := 1, borrow_date := 0,
                due_date := some 0, return_date := none }) 864001).days_overdue =
      specDaysOverdue 0 864001 ∧
    (calculate_late_fee_for_book
        (some { patron_id := "123456", book_id := 1, borrow_date := 0,
                due_date := some 0, return_date := none }) 864001).fee_amount =
      specLateFee 0 864001 ∧
    specDaysOverdue 0 864001 = 10 ∧ specLateFee 0 864001 = 13 / 2 :=
  ⟨rfl,
   ((c1_late_fee_formula _ 864001).1 0 rfl).1,
   ((c1_late_fee_formula _ 864001).1 0 rfl).2,
   by decide,
   by
    have h : specDaysOverdue 0 864001 = 10 := by decide
    rw [specLateFee, h]
    norm_num [round2, round_eq]⟩


/-- Looking a book up after updating its availability yields the book
with the delta applied. -/
lemma get_book_after_update (st : LibraryState) (b : Int) (d : Int) :
    get_book_by_id (update_book_availability st b d) b =
      (get_book_by_id st b).map (fun bk =>
        { bk with available_copies := bk.available_copies + d }) := by
  simp only [get_book_by_id, update_book_availability]
  induction st.books with
  | nil => rfl
  | cons hd tl ih =>
    by_cases h : hd.id = b
    · simp [List.find?_cons, h]
    · have hcond : ¬((hd.id == b) = true) := by simp [h]
      have h2 : (hd.id == b) = false := by simp [h]
      rw [List.map_cons, List.find?_cons, List.find?_cons, if_neg hcond]
      simp only [h2]
      exact ih

/-- The freshly inserted record is the active loan of its patron and
book. -/
lemma recordActiveFor_new (p : String) (b : Int) (d1 d2 : Int) :
    recordActiveFor p b
      { patron_id := p, book_id := b, borrow_date := d1,
        due_date := some d2, return_date := none } = true := by
  simp [recordActiveFor]

/-- C2: when borrow_book_by_patron succeeds, the available copies of the
book drop by exactly 1, exactly one active borrow record exists for the
patron and book, and its due date is the borrow instant plus 14 days. -/
theorem c2_borrow_success_effects (fl : DbFlags) (st : LibraryState)
    (p : String) (b : Int) (now : Int)
    (h : (borrow_book_by_patron fl st p b now).ok = true) :
    (∃ book, get_book_by_id st b = some book ∧
      get_book_by_id (borrow_book_by_patron fl st p b now).state b =
        some { book with available_copies := book.available_copies - 1 }) ∧
    (borrow_book_by_patron fl st p b now).state.records.filter
        (recordActiveFor p b) =
      [{ patron_id := p, book_id := b, borrow_date := now,
         due_date := some (now + 14 * 86400), return_date := none }] := by
  by_cases hp : patronIdOk p = true
  case neg => simp [borrow_book_by_patron, hp] at h
  rcases hb : get_book_by_id st b with _ | book
  · rw [borrow_book_by_patron] at h
    rw [hp] at h
    simp only [hb] at h
    simp at h
  by_cases hav : book.available_copies ≤ 0
  · simp [borrow_book_by_patron, hp, hb, hav] at h
  by_cases hcnt : 5 ≤ get_patron_borrow_count st p
  · simp [borrow_book_by_patron, hp, hb, hav, hcnt] at h
  by_cases hdup : (get_borrow_record st p b).isSome = true
  · simp [borrow_book_by_patron, hp, hb, hav, hcnt, hdup] at h
  by_cases hins : fl.insert_ok = true
  case neg =>
    simp [borrow_book_by_patron, hp, hb, hav, hcnt, hdup, hins] at h
  by_cases hup : fl.update_avail_ok = true
  case neg =>
    simp [borrow_book_by_patron, hp, hb, hav, hcnt, hdup, hins, hup] at h
  have hb' : st.books.find? (fun bk => bk.id == b) = some book := hb
  have hbid := List.find?_some hb'
  have hstate : (borrow_book_by_patron fl st p b now).state =
      update_book_availability
        (insert_borrow_record st p b now (now + 14 * 86400)) b (-1) := by
    simp [borrow_book_by_patron, hp, hb, hav, hcnt, hdup, hins, hup]
  constructor
  · refine ⟨book, rfl, ?_⟩
    rw [hstate, get_book_after_update]
    have hbooks : get_book_by_id
        (insert_borrow_record st p b now (now + 14 * 86400)) b =
        get_book_by_id st b := rfl
    rw [hbooks, hb]
    have : book.available_copies + (-1) = book.available_copies - 1 := by ring
    simp [this]
  · rw [hstate]
    have hrecs : (update_book_availability
        (insert_borrow_record st p b now (now + 14 * 86400)) b (-1)).records =
        st.records ++
          [{ patron_id := p, book_id := b, borrow_date := now,
             due_date := some (now + 14 * 86400), return_date := none }] := rfl
    rw [hrecs, List.filter_append]
    have hnil : st.records.filter (recordActiveFor p b) = [] := by
      rw [List.filter_eq_nil_iff]
      intro a ha hact
      have hsome : (get_borrow_record st p b).isSome = true := by
        simp only [get_borrow_record, List.find?_isSome]
        exact ⟨a, ha, hact⟩
      exact hdup hsome
    rw [hnil]
    simp [recordActiveFor_new]

/-- Witness for C2: a concrete successful borrow. -/
theorem c2_borrow_success_effects_witness :
    (borrow_book_by_patron allOk
        { books := [{ id := 1, title := "B", author := "A",
                      isbn := "1234567890123", total_copies := 3,
                      available_copies := 2 }], records := [] }
        "123456" 1 0).ok = true ∧
    ((∃ book, get_book_by_id
        { books := [{ id := 1, title := "B", author := "A",
                      isbn := "1234567890123", total_copies := 3,
                      available_copies := 2 }], records := [] } 1 = some book ∧
      get_book_by_id (borrow_book_by_patron allOk
        { books := [{ id := 1, title := "B", author := "A",
                      isbn := "1234567890123", total_copies := 3,
                      available_copies := 2 }], records := [] }
        "123456" 1 0).state 1 =
        some { book with available_copies := book.available_copies - 1 }) ∧
    (borrow_book_by_patron allOk
        { books := [{ id := 1, title := "B", author := "A",
                      isbn := "1234567890123", total_copies := 3,
                      available_copies := 2 }], records := [] }
        "123456" 1 0).state.records.filter (recordActiveFor "123456" 1) =
      [{ patron_id := "123456", book_id := 1, borrow_date := 0,
         due_date := some (0 + 14 * 86400), return_date := none }]) :=
  ⟨by decide,
   c2_borrow_success_effects allOk
     { books := [{ id := 1, title := "B", author := "A",
                   isbn := "1234567890123", total_copies := 3,
                   available_copies := 2 }], records := [] }
     "123456" 1 0 (by decide)⟩

/-- C4: the borrow validation checks run in the order patron-id format,
book existence, availability, loan limit, duplicate active loan; the
first failing check determines the error and the state is unchanged on
every validation failure; and a patron holding exactly 5 active loans is
rejected by the limit check. -/
theorem c4_borrow_validation_order (fl : DbFlags) (st : LibraryState)
    (p : String) (b : Int) (now : Int) :
    (∀ e, firstFailingCheck st p b = some e →
      borrow_book_by_patron fl st p b now =
        ⟨false, borrowErrorMsg e, st⟩) ∧
    (patronIdOk p = true →
      (∃ book, get_book_by_id st b = some book ∧
        0 < book.available_copies) →
      get_patron_borrow_count st p = 5 →
      borrow_book_by_patron fl st p b now =
        ⟨false, borrowErrorMsg .borrowLimit, st⟩) := by
  have main : ∀ e, firstFailingCheck st p b = some e →
      borrow_book_by_patron fl st p b now =
        ⟨false, borrowErrorMsg e, st⟩ := by
    intro e he
    cases hp : patronIdOk p with
    | false =>
      simp [firstFailingCheck, hp] at he
      subst he
      simp [borrow_book_by_patron, hp, borrowErrorMsg]
    | true =>
    rcases hb : get_book_by_id st b with _ | book
    · simp [firstFailingCheck, hp, hb] at he
      subst he
      simp [borrow_book_by_patron, hp, hb, borrowErrorMsg]
    by_cases hav : book.available_copies ≤ 0
    · simp [firstFailingCheck, hp, hb, hav] at he
      subst he
      simp [borrow_book_by_patron, hp, hb, hav, borrowErrorMsg]
    by_cases hcnt : 5 ≤ get_patron_borrow_count st p
    · simp [firstFailingCheck, hp, hb, hav, hcnt] at he
      subst he
      simp [borrow_book_by_patron, hp, hb, hav, hcnt, borrowErrorMsg]
    by_cases hdup : (get_borrow_record st p b).isSome = true
    · simp [firstFailingCheck, hp, hb, hav, hcnt, hdup] at he
      subst he
      simp [borrow_book_by_patron, hp, hb, hav, hcnt, hdup, borrowErrorMsg]
    · simp [firstFailingCheck, hp, hb, hav, hcnt, hdup] at he
  refine ⟨main, ?_⟩
  intro hp h2 hcnt
  obtain ⟨book, hb, hpos⟩ := h2
  refine main .borrowLimit ?_
  have hav : ¬book.available_copies ≤ 0 := by omega
  have hc : 5 ≤ get_patron_borrow_count st p := by omega
  simp [firstFailingCheck, hp, hb, hav, hc]

/-- Witness for C4: a patron with exactly 5 active loans is turned away
by the limit check. -/
theorem c4_borrow_validation_order_witness :
    firstFailingCheck
      { books := [{ id := 1, title := "B", author := "A",
                    isbn := "1234567890123", total_copies := 2,
                    available_copies := 1 }],
        records := [
          { patron_id := "123456", book_id := 10, borrow_date := 0,
            due_date := some 5, return_date := none },
          { patron_id := "123456", book_id := 11, borrow_date := 0,
            due_date := some 5, return_date := none },
          { patron_id := "123456", book_id := 12, borrow_date := 0,
            due_date := some 5, return_date := none },
          { patron_id := "123456", book_id := 13, borrow_date := 0,
            due_date := some 5, return_date := none },
          { patron_id := "123456", book_id := 14, borrow_date := 0,
            due_date := some 5, return_date := none }] }
      "123456" 1 = some .borrowLimit ∧
    get_patron_borrow_count
      { books := [{ id := 1, title := "B", author := "A",
                    isbn := "1234567890123", total_copies := 2,
                    available_copies := 1 }],
        records := [
          { patron_id := "123456", book_id := 10, borrow_date := 0,
            due_date := some 5, return_date := none },
          { patron_id := "123456", book_id := 11, borrow_date := 0,
            due_date := some 5, return_date := none },
          { patron_id := "123456", book_id := 12, borrow_date := 0,
            due_date := some 5, return_date := none },
          { patron_id := "123456", book_id := 13, borrow_date := 0,
            due_date := some 5, return_date := none },
          { patron_id := "123456", book_id := 14, borrow_date := 0,
            due_date := some 5, return_date := none }] }
      "123456" = 5 ∧
    borrow_book_by_patron allOk
      { books := [{ id := 1, title := "B", author := "A",
                    isbn := "1234567890123", total_copies := 2,
                    available_copies := 1 }],
        records := [
          { patron_id := "123456", book_id := 10, borrow_date := 0,
            due_date := some 5, return_date := none },
          { patron_id := "123456", book_id := 11, borrow_date := 0,
            due_date := some 5, return_date := none },
          { patron_id := "123456", book_id := 12, borrow_date := 0,
            due_date := some 5, return_date := none },
          { patron_id := "123456", book_id := 13, borrow_date := 0,
            due_date := some 5, return_date := none },
          { patron_id := "123456", book_id := 14, borrow_date := 0,
            due_date := some 5, return_date := none }] }
      "123456" 1 0 =
      ⟨false, borrowErrorMsg .borrowLimit,
        { books := [{ id := 1, title := "B", author := "A",
                      isbn := "1234567890123", total_copies := 2,
                      available_copies := 1 }],
          records := [
            { patron_id := "123456", book_id := 10, borrow_date := 0,
              due_date := some 5, return_date := none },
            { patron_id := "123456", book_id := 11, borrow_date := 0,
              due_date := some 5, return_date := none },
            { patron_id := "123456", book_id := 12, borrow_date := 0,
              due_date := some 5, return_date := none },
            { patron_id := "123456", book_id := 13, borrow_date := 0,
              due_date := some 5, return_date := none },
            { patron_id := "123456", book_id := 14, borrow_date := 0,
              due_date := some 5, return_date := none }] }⟩ :=
  ⟨by decide, by decide,
   (c4_borrow_validation_order allOk _ "123456" 1 0).2 (by decide)
     ⟨{ id := 1, title := "B", author := "A", isbn := "1234567890123",
        total_copies := 2, available_copies := 1 }, by decide, by decide⟩
     (by decide)⟩

/-- After closing the active records of a patron and book, no active
record for that pair remains. -/
lemma filter_active_after_close (l : List BorrowRecord) (p : String)
    (b : Int) (t : Int) :
    (l.map (fun r => if recordActiveFor p b r then
        { r with return_date := some t } else r)).filter
      (recordActiveFor p b) = [] := by
  rw [List.filter_eq_nil_iff]
  intro a ha
  obtain ⟨r, hr, rfl⟩ := List.mem_map.mp ha
  by_cases h : recordActiveFor p b r = true
  · rw [if_pos h]
    simp [recordActiveFor]
  · rw [if_neg h]
    exact h

/-- C3 (amended): when return_book_by_patron succeeds, the available
copies of the book rise by exactly 1, no active borrow record remains
for the patron and book, and the success message includes the fee amount
and the days overdue when the computed fee is positive, while a zero fee
yields the fixed no-late-fee message with no numeric amount. -/
theorem c3_return_success_effects (fl : DbFlags) (st : LibraryState)
    (p : String) (b : Int) (now : Int)
    (h : (return_book_by_patron fl st p b now).ok = true) :
    (∃ book, get_book_by_id st b = some book ∧
      get_book_by_id (return_book_by_patron fl st p b now).state b =
        some { book with available_copies := book.available_copies + 1 }) ∧
    (return_book_by_patron fl st p b now).state.records.filter
      (recordActiveFor p b) = [] ∧
    (0 < (calculate_late_fee_for_book
        (get_borrow_record st p b) now).fee_amount →
      includesStr (return_book_by_patron fl st p b now).msg
        (money2 (calculate_late_fee_for_book
          (get_borrow_record st p b) now).fee_amount) ∧
      includesStr (return_book_by_patron fl st p b now).msg
        (toString (calculate_late_fee_for_book
          (get_borrow_record st p b) now).days_overdue ++ " days overdue")) ∧
    ((calculate_late_fee_for_book
        (get_borrow_record st p b) now).fee_amount ≤ 0 →
      ∃ book, get_book_by_id st b = some book ∧
        (return_book_by_patron fl st p b now).msg =
          "Book returned: \"" ++ book.title ++ "\". No late fee.") := by
  cases hp : patronIdOk p with
  | false => simp [return_book_by_patron, hp] at h
  | true =>
  cases hz : ((b : Int) == 0) with
  | true => simp [return_book_by_patron, hp, hz] at h
  | false =>
  rcases hb : get_book_by_id st b with _ | book
  · by_cases h13 : ((toString b).length == 13) = true
    · simp [return_book_by_patron, hp, hz, hb, h13] at h
    · simp [return_book_by_patron, hp, hz, hb, h13] at h
  rcases hrec : get_borrow_record st p b with _ | rec
  · simp [return_book_by_patron, hp, hz, hb, hrec] at h
  cases hret : fl.update_return_ok with
  | false => simp [return_book_by_patron, hp, hz, hb, hrec, hret] at h
  | true =>
  cases hup : fl.update_avail_ok with
  | false => simp [return_book_by_patron, hp, hz, hb, hrec, hret, hup] at h
  | true =>
  have hres : return_book_by_patron fl st p b now =
      if 0 < (calculate_late_fee_for_book (some rec) now).fee_amount then
        ⟨true, "Book returned: \"" ++ book.title ++ "\". Late fee: $" ++
          money2 (calculate_late_fee_for_book (some rec) now).fee_amount ++
          " (" ++
          toString (calculate_late_fee_for_book (some rec) now).days_overdue
          ++ " days overdue).",
          update_book_availability
            (update_borrow_record_return_date st p b now) b 1⟩
      else
        ⟨true, "Book returned: \"" ++ book.title ++ "\". No late fee.",
          update_book_availability
            (update_borrow_record_return_date st p b now) b 1⟩ := by
    simp [return_book_by_patron, hp, hz, hb, hrec, hret, hup]
  have hstate : (return_book_by_patron fl st p b now).state =
      update_book_availability
        (update_borrow_record_return_date st p b now) b 1 := by
    rw [hres]
    split <;> rfl
  have hmsg : (return_book_by_patron fl st p b now).msg =
      if 0 < (calculate_late_fee_for_book (some rec) now).fee_amount then
        "Book returned: \"" ++ book.title ++ "\". Late fee: $" ++
          money2 (calculate_late_fee_for_book (some rec) now).fee_amount ++
          " (" ++
          toString (calculate_late_fee_for_book (some rec) now).days_overdue
          ++ " days overdue)."
      else "Book returned: \"" ++ book.title ++ "\". No late fee." := by
    rw [hres, apply_ite OpResult.msg]
  refine ⟨?_, ?_, ?_, ?_⟩
  · refine ⟨book, rfl, ?_⟩
    rw [hstate, get_book_after_update]
    have hb2 : get_book_by_id
        (update_borrow_record_return_date st p b now) b = some book := hb
    rw [hb2]
    simp
  · rw [hstate]
    exact filter_active_after_close st.records p b now
  · intro hpos
    rw [hmsg, if_pos hpos]
    constructor
    · refine ⟨("Book returned: \"" ++ book.title ++ "\". Late fee: $").data,
        (" (" ++ toString (calculate_late_fee_for_book
          (some rec) now).days_overdue ++ " days overdue).").data, ?_⟩
      simp [String.data_append, List.append_assoc]
    · refine ⟨("Book returned: \"" ++ book.title ++ "\". Late fee: $" ++
          money2 (calculate_late_fee_for_book (some rec) now).fee_amount ++
          " (").data, (").").data, ?_⟩
      have hsplit : (" days overdue)." : String).data =
          (" days overdue" : String).data ++ (")." : String).data := rfl
      simp [String.data_append, List.append_assoc, hsplit]
  · intro hle
    refine ⟨book, rfl, ?_⟩
    rw [hmsg, if_neg (not_lt.mpr hle)]

/-- A one-copy-available book used by the concrete scenarios. -/
def bookB : Book :=
  { id := 1, title := "B", author := "A", isbn := "1234567890123",
    total_copies := 3, available_copies := 1 }

/-- An active loan of bookB that is not yet due at instant 0. -/
def recOnTime : BorrowRecord :=
  { patron_id := "123456", book_id := 1, borrow_date := 0,
    due_date := some 100, return_date := none }

/-- An active loan of bookB that is due at instant 0. -/
def recLate : BorrowRecord :=
  { patron_id := "123456", book_id := 1, borrow_date := 0,
    due_date := some 0, return_date := none }

/-- Library holding bookB and the on-time loan. -/
def stOnTime : LibraryState := { books := [bookB], records := [recOnTime] }

/-- Library holding bookB and the due loan. -/
def stLate : LibraryState := { books := [bookB], records := [recLate] }

/-- The fee quote of the on-time loan at instant 0 is zero. -/
lemma feeOnTime_eval :
    calculate_late_fee_for_book (some recOnTime) 0 = ⟨0, 0⟩ := by
  show feeFromDue (some 100) 0 = ⟨0, 0⟩
  have hdays : max (0 : Int) (((0 : Int) - 100).fdiv 86400) = 0 := by decide
  simp only [feeFromDue, hdays]
  norm_num [round2, round_eq, min_def, max_def]

/-- The fee quote of the due loan 10 days later is 6.50 over 10 days. -/
lemma feeLate_eval :
    calculate_late_fee_for_book (some recLate) 864000 = ⟨13 / 2, 10⟩ := by
  show feeFromDue (some 0) 864000 = ⟨13 / 2, 10⟩
  have hdays : max (0 : Int) (((864000 : Int) - 0).fdiv 86400) = 10 := by
    decide
  simp only [feeFromDue, hdays]
  norm_num [round2, round_eq, min_def, max_def]

/-- 6.50 rendered with two decimals. -/
lemma money2_late : money2 (13 / 2 : ℚ) = "6.50" := by
  have h1 : round ((13 / 2 : ℚ) * 100) = 650 := by norm_num [round_eq]
  simp only [money2, h1]
  decide

/-- The concrete on-time return evaluates to the no-late-fee message. -/
lemma return_onTime_eval :
    return_book_by_patron allOk stOnTime "123456" 1 0 =
      ⟨true, "Book returned: \"B\". No late fee.",
        { books := [{ id := 1, title := "B", author := "A",
                      isbn := "1234567890123", total_copies := 3,
                      available_copies := 2 }],
          records := [{ patron_id := "123456", book_id := 1,
                        borrow_date := 0, due_date := some 100,
                        return_date := some 0 }] }⟩ := by
  have hrec : get_borrow_record stOnTime "123456" 1 = some recOnTime := by
    decide
  have hbk : get_book_by_id stOnTime 1 = some bookB := by decide
  have hpat : patronIdOk "123456" = true := by decide
  simp only [return_book_by_patron, hrec, hbk, hpat, feeOnTime_eval]
  norm_num
  decide

/-- The concrete overdue return evaluates to the late-fee message. -/
lemma return_late_eval :
    return_book_by_patron allOk stLate "123456" 1 864000 =
      ⟨true, "Book returned: \"B\". Late fee: $6.50 (10 days overdue).",
        { books := [{ id := 1, title := "B", author := "A",
                      isbn := "1234567890123", total_copies := 3,
                      available_copies := 2 }],
          records := [{ patron_id := "123456", book_id := 1,
                        borrow_date := 0, due_date := some 0,
                        return_date := some 864000 }] }⟩ := by
  have hrec : get_borrow_record stLate "123456" 1 = some recLate := by decide
  have hbk : get_book_by_id stLate 1 = some bookB := by decide
  have hpat : patronIdOk "123456" = true := by decide
  simp only [return_book_by_patron, hrec, hbk, hpat, feeLate_eval, money2_late]
  norm_num
  decide

/-- Counterexample to C3 as stated: a successful on-time return whose
message is the fixed no-late-fee text, which contains no digit at all, so
it does not include the computed fee amount 0 in any numeric rendering. -/
theorem c3_zero_fee_message_counterexample :
    (return_book_by_patron allOk stOnTime "123456" 1 0).ok = true ∧
    (calculate_late_fee_for_book
      (get_borrow_record stOnTime "123456" 1) 0).fee_amount = 0 ∧
    (return_book_by_patron allOk stOnTime "123456" 1 0).msg =
      "Book returned: \"B\". No late fee." ∧
    money2 0 = "0.00" ∧
    ¬ includesStr (return_book_by_patron allOk stOnTime "123456" 1 0).msg
      "0.00" ∧
    (return_book_by_patron allOk stOnTime "123456" 1 0).msg.data.all
      (fun c => !c.isDigit) = true := by
  have hrec : get_borrow_record stOnTime "123456" 1 = some recOnTime := by
    decide
  refine ⟨?_, ?_, ?_, ?_, ?_, ?_⟩
  · rw [return_onTime_eval]
  · rw [hrec, feeOnTime_eval]
  · rw [return_onTime_eval]
  · have h0 : round ((0 : ℚ) * 100) = 0 := by norm_num
    simp only [money2, h0]
    decide
  · rw [return_onTime_eval]
    decide
  · rw [return_onTime_eval]
    decide

/-- Witness for C3 (amended): a concrete overdue return. -/
theorem c3_return_success_effects_witness :
    (return_book_by_patron allOk stLate "123456" 1 864000).ok = true ∧
    ((∃ book, get_book_by_id stLate 1 = some book ∧
      get_book_by_id (return_book_by_patron allOk stLate
        "123456" 1 864000).state 1 =
        some { book with available_copies := book.available_copies + 1 }) ∧
    (return_book_by_patron allOk stLate "123456" 1 864000).state.records.filter
      (recordActiveFor "123456" 1) = [] ∧
    (0 < (calculate_late_fee_for_book
        (get_borrow_record stLate "123456" 1) 864000).fee_amount →
      includesStr (return_book_by_patron allOk stLate "123456" 1 864000).msg
        (money2 (calculate_late_fee_for_book
          (get_borrow_record stLate "123456" 1) 864000).fee_amount) ∧
      includesStr (return_book_by_patron allOk stLate "123456" 1 864000).msg
        (toString (calculate_late_fee_for_book
          (get_borrow_record stLate "123456" 1) 864000).days_overdue ++
          " days overdue")) ∧
    ((calculate_late_fee_for_book
        (get_borrow_record stLate "123456" 1) 864000).fee_amount ≤ 0 →
      ∃ book, get_book_by_id stLate 1 = some book ∧
        (return_book_by_patron allOk stLate "123456" 1 864000).msg =
          "Book returned: \"" ++ book.title ++ "\". No late fee.")) := by
  have hok : (return_book_by_patron allOk stLate "123456" 1 864000).ok =
      true := by
    rw [return_late_eval]
  exact ⟨hok, c3_return_success_effects allOk stLate "123456" 1 864000 hok⟩

/-- Closing the active records of a pair is the identity on a record list
holding no active record of that pair. -/
lemma close_map_of_no_active (l : List BorrowRecord) (p : String) (b : Int)
    (t : Int) (h : ∀ r ∈ l, ¬recordActiveFor p b r = true) :
    l.map (fun r => if recordActiveFor p b r then
      { r with return_date := some t } else r) = l := by
  rw [List.map_congr_left (fun r hr => if_neg (h r hr))]
  simp

/-- Counterexample to C5 as stated: with storage that accepts the insert
but fails both the availability decrement and the compensating
return-date update, the borrow reports the failure yet leaves an active
borrow record behind. -/
theorem c5_partial_failure_counterexample :
    (borrow_book_by_patron ⟨true, false, false⟩
      { books := [bookB], records := [] } "123456" 1 0).ok = false ∧
    (borrow_book_by_patron ⟨true, false, false⟩
      { books := [bookB], records := [] } "123456" 1 0).msg =
      "Database error occurred while updating book availability." ∧
    (borrow_book_by_patron ⟨true, false, false⟩
        { books := [bookB], records := [] } "123456" 1 0).state.records.filter
      (recordActiveFor "123456" 1) =
      [{ patron_id := "123456", book_id := 1, borrow_date := 0,
         due_date := some 1209600, return_date := none }] := by
  decide

/-- C5 (amended): if the availability decrement fails after the borrow
record was created and the compensating return-date update itself
succeeds, the new record is left closed, no active loan remains for the
pair, the books are untouched and a storage failure is reported; and in
a return, if setting the return date fails, the call fails with the
state, hence the availability, completely untouched. -/
theorem c5_partial_failure_compensation (fl : DbFlags) (st : LibraryState)
    (p : String) (b : Int) (now : Int) :
    (fl.insert_ok = true → fl.update_avail_ok = false →
      fl.update_return_ok = true → firstFailingCheck st p b = none →
      (borrow_book_by_patron fl st p b now).ok = false ∧
      (borrow_book_by_patron fl st p b now).msg =
        "Database error occurred while updating book availability." ∧
      (borrow_book_by_patron fl st p b now).state.books = st.books ∧
      (borrow_book_by_patron fl st p b now).state.records =
        st.records ++
          [{ patron_id := p, book_id := b, borrow_date := now,
             due_date := some (now + 14 * 86400),
             return_date := some now }] ∧
      (borrow_book_by_patron fl st p b now).state.records.filter
        (recordActiveFor p b) = []) ∧
    (fl.update_return_ok = false → patronIdOk p = true →
      ((b : Int) == 0) = false →
      (∃ book, get_book_by_id st b = some book) →
      (get_borrow_record st p b).isSome = true →
      return_book_by_patron fl st p b now =
        ⟨false, "Database error occurred while marking return.", st⟩) := by
  constructor
  · intro hins hup hretok hfc
    cases hp : patronIdOk p with
    | false => simp [firstFailingCheck, hp] at hfc
    | true =>
    rcases hb : get_book_by_id st b with _ | book
    · simp [firstFailingCheck, hp, hb] at hfc
    by_cases hav : book.available_copies ≤ 0
    · simp [firstFailingCheck, hp, hb, hav] at hfc
    by_cases hcnt : 5 ≤ get_patron_borrow_count st p
    · simp [firstFailingCheck, hp, hb, hav, hcnt] at hfc
    by_cases hdup : (get_borrow_record st p b).isSome = true
    · simp [firstFailingCheck, hp, hb, hav, hcnt, hdup] at hfc
    have hres : borrow_book_by_patron fl st p b now =
        ⟨false, "Database error occurred while updating book availability.",
          update_borrow_record_return_date
            (insert_borrow_record st p b now (now + 14 * 86400)) p b now⟩ := by
      simp [borrow_book_by_patron, hp, hb, hav, hcnt, hdup, hins, hup, hretok]
    have hnoact : ∀ r ∈ st.records, ¬recordActiveFor p b r = true :=
      List.find?_eq_none.mp (Option.not_isSome_iff_eq_none.mp hdup)
    refine ⟨by rw [hres], by rw [hres], by rw [hres]; rfl, ?_, ?_⟩
    · rw [hres]
      show ((st.records ++ [_]).map _) = _
      rw [List.map_append, close_map_of_no_active st.records p b now hnoact]
      simp [recordActiveFor]
    · rw [hres]
      exact filter_active_after_close _ p b now
  · intro hretf hp hz hbex hrex
    obtain ⟨book, hb⟩ := hbex
    obtain ⟨rec, hrec⟩ := Option.isSome_iff_exists.mp hrex
    simp [return_book_by_patron, hp, hz, hb, hrec, hretf]

/-- Witness for C5 (amended): both partial-failure scenarios at concrete
inputs. -/
theorem c5_partial_failure_compensation_witness :
    ((borrow_book_by_patron ⟨true, false, true⟩
        { books := [bookB], records := [] } "123456" 1 0).ok = false ∧
      (borrow_book_by_patron ⟨true, false, true⟩
        { books := [bookB], records := [] } "123456" 1 0).msg =
        "Database error occurred while updating book availability." ∧
      (borrow_book_by_patron ⟨true, false, true⟩
        { books := [bookB], records := [] } "123456" 1 0).state.books =
        ({ books := [bookB], records := [] } : LibraryState).books ∧
      (borrow_book_by_patron ⟨true, false, true⟩
        { books := [bookB], records := [] } "123456" 1 0).state.records =
        ({ books := [bookB], records := [] } : LibraryState).records ++
          [{ patron_id := "123456", book_id := 1, borrow_date := 0,
             due_date := some (0 + 14 * 86400), return_date := some 0 }] ∧
      (borrow_book_by_patron ⟨true, false, true⟩
          { books := [bookB], records := [] }
          "123456" 1 0).state.records.filter
        (recordActiveFor "123456" 1) = []) ∧
    return_book_by_patron ⟨true, true, false⟩ stOnTime "123456" 1 0 =
      ⟨false, "Database error occurred while marking return.", stOnTime⟩ :=
  ⟨(c5_partial_failure_compensation ⟨true, false, true⟩
      { books := [bookB], records := [] } "123456" 1 0).1
      rfl rfl rfl (by decide),
   (c5_partial_failure_compensation ⟨true, true, false⟩
      stOnTime "123456" 1 0).2
      rfl (by decide) (by decide) ⟨bookB, by decide⟩ (by decide)⟩

/-- C7: whenever the computed late fee is not positive, pay_late_fees
fails and never invokes the payment gateway. -/
theorem c7_no_gateway_when_no_fee (st : LibraryState)
    (gw : String → ℚ → String → PayGatewayOutcome) (p : String) (b : Int)
    (now : Int)
    (h : (calculate_late_fee_for_book
      (get_borrow_record st p b) now).fee_amount ≤ 0) :
    (pay_late_fees st gw p b now).ok = false ∧
    (pay_late_fees st gw p b now).gatewayCalls = 0 := by
  cases hp : patronIdOk p with
  | false => simp [pay_late_fees, hp]
  | true => simp [pay_late_fees, hp, h]

/-- Witness for C7: an on-time loan carries no fee, so the payment
gateway is not called. -/
theorem c7_no_gateway_when_no_fee_witness :
    (calculate_late_fee_for_book
      (get_borrow_record stOnTime "123456" 1) 0).fee_amount ≤ 0 ∧
    (pay_late_fees stOnTime (fun _ _ _ => .ok "txn_1" "done")
      "123456" 1 0).ok = false ∧
    (pay_late_fees stOnTime (fun _ _ _ => .ok "txn_1" "done")
      "123456" 1 0).gatewayCalls = 0 := by
  have hrec : get_borrow_record stOnTime "123456" 1 = some recOnTime := by
    decide
  have h : (calculate_late_fee_for_book
      (get_borrow_record stOnTime "123456" 1) 0).fee_amount ≤ 0 := by
    rw [hrec, feeOnTime_eval]
  exact ⟨h, c7_no_gateway_when_no_fee stOnTime
    (fun _ _ _ => .ok "txn_1" "done") "123456" 1 0 h⟩

/-- C8: refund_late_fee_payment rejects an empty or wrongly prefixed
transaction id, a non-positive amount or an amount above 15.00 without
calling the gateway; on valid inputs it calls the gateway exactly once
and maps a reported failure or a raised fault to a failed result. -/
theorem c8_refund_validation (st : LibraryState)
    (gw : String → ℚ → RefundGatewayOutcome) (t : String) (a : ℚ) :
    ((t.isEmpty = true ∨ strStartsWith t "txn_" = false ∨ a ≤ 0 ∨ 15 < a) →
      (refund_late_fee_payment st gw t a).ok = false ∧
      (refund_late_fee_payment st gw t a).gatewayCalls = 0) ∧
    (t.isEmpty = false → strStartsWith t "txn_" = true → 0 < a → a ≤ 15 →
      (refund_late_fee_payment st gw t a).gatewayCalls = 1 ∧
      (∀ m, gw t a = .ok m →
        refund_late_fee_payment st gw t a = ⟨true, m, 1, st⟩) ∧
      (∀ m, gw t a = .declined m →
        refund_late_fee_payment st gw t a =
          ⟨false, "Refund failed: " ++ m, 1, st⟩) ∧
      (∀ m, gw t a = .fault m →
        refund_late_fee_payment st gw t a =
          ⟨false, "Refund processing error: " ++ m, 1, st⟩)) := by
  constructor
  · intro hd
    cases htxn : (t.isEmpty || !strStartsWith t "txn_") with
    | true => simp [refund_late_fee_payment, htxn]
    | false =>
      have hcomp := htxn
      simp only [Bool.or_eq_false_iff, Bool.not_eq_true'] at hcomp
      rcases hd with h1 | h2 | h3 | h4
      · rw [h1] at hcomp
        exact absurd hcomp.1 (by simp)
      · rw [h2] at hcomp
        exact absurd hcomp.2 (by simp)
      · simp [refund_late_fee_payment, htxn, h3]
      · by_cases ha : a ≤ 0
        · simp [refund_late_fee_payment, htxn, ha]
        · simp [refund_late_fee_payment, htxn, ha, h4]
  · intro he hs ha hb
    have htxn : (t.isEmpty || !strStartsWith t "txn_") = false := by
      simp [he, hs]
    have h2 : ¬(a ≤ 0) := not_le.mpr ha
    have h3 : ¬(15 < a) := not_lt.mpr hb
    refine ⟨?_, ?_, ?_, ?_⟩
    · cases hgw : gw t a <;>
        simp [refund_late_fee_payment, htxn, h2, h3, hgw]
    · intro m hm
      simp [refund_late_fee_payment, htxn, h2, h3, hm]
    · intro m hm
      simp [refund_late_fee_payment, htxn, h2, h3, hm]
    · intro m hm
      simp [refund_late_fee_payment, htxn, h2, h3, hm]

/-- Witness for C8: a rejected zero-amount refund and an accepted refund
that the gateway declines. -/
theorem c8_refund_validation_witness :
    ((refund_late_fee_payment { books := [], records := [] }
        (fun _ _ => .declined "no") "txn_1" 0).ok = false ∧
      (refund_late_fee_payment { books := [], records := [] }
        (fun _ _ => .declined "no") "txn_1" 0).gatewayCalls = 0) ∧
    (refund_late_fee_payment { books := [], records := [] }
        (fun _ _ => .declined "no") "txn_1" 1).gatewayCalls = 1 ∧
    refund_late_fee_payment { books := [], records := [] }
        (fun _ _ => .declined "no") "txn_1" 1 =
      ⟨false, "Refund failed: " ++ "no", 1,
        { books := [], records := [] }⟩ := by
  refine ⟨(c8_refund_validation { books := [], records := [] }
      (fun _ _ => .declined "no") "txn_1" 0).1
      (Or.inr (Or.inr (Or.inl le_rfl))), ?_, ?_⟩
  · exact ((c8_refund_validation { books := [], records := [] }
      (fun _ _ => .declined "no") "txn_1" 1).2
      (by decide) (by decide) (by norm_num) (by norm_num)).1
  · exact (((c8_refund_validation { books := [], records := [] }
      (fun _ _ => .declined "no") "txn_1" 1).2
      (by decide) (by decide) (by norm_num) (by norm_num)).2.2.1 "no" rfl)

/-- C10: pay_late_fees and refund_late_fee_payment never mutate the
stored books or borrow records, whatever the validation outcome or the
gateway behavior. -/
theorem c10_payment_frame (st : LibraryState)
    (gw1 : String → ℚ → String → PayGatewayOutcome)
    (gw2 : String → ℚ → RefundGatewayOutcome) (p : String) (b : Int)
    (now : Int) (t : String) (a : ℚ) :
    (pay_late_fees st gw1 p b now).state = st ∧
    (refund_late_fee_payment st gw2 t a).state = st := by
  constructor
  · simp only [pay_late_fees]
    split
    · rfl
    · split
      · rfl
      · split
        · rfl
        · split <;> rfl
  · simp only [refund_late_fee_payment]
    split
    · rfl
    · split
      · rfl
      · split
        · rfl
        · split <;> rfl

/-- Appending one record adds its own contribution to the active count. -/
lemma activeCountBook_append (l : List BorrowRecord) (r : BorrowRecord)
    (id : Int) :
    activeCountBook (l ++ [r]) id =
      activeCountBook l id +
        (if (r.book_id == id && r.return_date == none) = true
         then 1 else 0) := by
  simp [activeCountBook, List.countP_append, List.countP_cons]

/-- Closing the active records of one pair rewrites the active count as a
count over the original list with the closed records excluded. -/
lemma activeCountBook_close_eq (l : List BorrowRecord) (p : String)
    (b t id : Int) :
    activeCountBook (l.map (fun r => if recordActiveFor p b r then
        { r with return_date := some t } else r)) id =
      l.countP (fun r => (r.book_id == id && r.return_date == none) &&
        !recordActiveFor p b r) := by
  rw [activeCountBook, List.countP_map]
  apply List.countP_congr
  intro r _
  by_cases hact : recordActiveFor p b r = true <;>
    simp [Function.comp, hact]

/-- Excluding the elements of a satisfied sub-predicate strictly lowers
the count. -/
lemma countP_and_not_lt {α : Type} (p q : α → Bool) (l : List α) (r : α)
    (hr : r ∈ l) (hq : q r = true)
    (himp : ∀ x, q x = true → p x = true) :
    l.countP (fun x => p x && !q x) < l.countP p := by
  induction l with
  | nil => cases hr
  | cons hd tl ih =>
    rw [List.countP_cons, List.countP_cons]
    rcases List.mem_cons.mp hr with rfl | htl
    · have h2 : p r = true := himp r hq
      have hle : tl.countP (fun x => p x && !q x) ≤ tl.countP p :=
        List.countP_mono_left (fun x _ hx => by
          simp only [Bool.and_eq_true] at hx
          exact hx.1)
      simp [hq, h2]
      omega
    · have hlt := ih htl
      have hle1 : (if (p hd && !q hd) = true then 1 else 0) ≤
          (if p hd = true then 1 else 0) := by
        by_cases hph : p hd = true <;> by_cases hqh : q hd = true <;>
          simp [hph, hqh]
      omega

/-- Closing records never raises an active count. -/
lemma activeCountBook_close_le (l : List BorrowRecord) (p : String)
    (b t id : Int) :
    activeCountBook (l.map (fun r => if recordActiveFor p b r then
        { r with return_date := some t } else r)) id ≤
      activeCountBook l id := by
  rw [activeCountBook_close_eq]
  exact List.countP_mono_left (fun x _ hx => by
    simp only [Bool.and_eq_true] at hx ⊢
    exact hx.1)

/-- Closing the pair of a present active record strictly lowers the
active count of its book. -/
lemma activeCountBook_close_lt (l : List BorrowRecord) (p : String)
    (b t : Int) (r : BorrowRecord) (hr : r ∈ l)
    (hact : recordActiveFor p b r = true) :
    activeCountBook (l.map (fun x => if recordActiveFor p b x then
        { x with return_date := some t } else x)) b <
      activeCountBook l b := by
  rw [activeCountBook_close_eq]
  apply countP_and_not_lt _ _ _ r hr hact
  intro x hx
  simp only [recordActiveFor, Bool.and_eq_true, beq_iff_eq] at hx
  simp [hx.1.2, hx.2]

/-- Updating availability does not change the id column of the books
table. -/
lemma books_id_map_update (st : LibraryState) (b d : Int) :
    (update_book_availability st b d).books.map (fun bk => bk.id) =
      st.books.map (fun bk => bk.id) := by
  simp only [update_book_availability, List.map_map]
  apply List.map_congr_left
  intro bk _
  by_cases h : (bk.id == b) = true <;> simp [Function.comp, h]

/-- Updating availability keeps the record table unchanged. -/
lemma records_update_avail (st : LibraryState) (b d : Int) :
    (update_book_availability st b d).records = st.records := rfl

/-- Inserting a record appends it to the record table. -/
lemma records_insert (st : LibraryState) (p : String) (b : Int)
    (d1 d2 : Int) :
    (insert_borrow_record st p b d1 d2).records =
      st.records ++
        [{ patron_id := p, book_id := b, borrow_date := d1,
           due_date := some d2, return_date := none }] := rfl

/-- A borrow operation whose availability failure is compensable
preserves the state invariant. -/
lemma stateInv_borrow (fl : DbFlags) (st : LibraryState) (p : String)
    (b : Int) (now : Int) (h : StateInv st)
    (hc : (fl.update_avail_ok || fl.update_return_ok) = true) :
    StateInv (borrow_book_by_patron fl st p b now).state := by
  obtain ⟨hnd, hinv⟩ := h
  cases hp : patronIdOk p with
  | false =>
    simp only [borrow_book_by_patron, hp]
    exact ⟨hnd, hinv⟩
  | true =>
  rcases hb : get_book_by_id st b with _ | book
  · simp only [borrow_book_by_patron, hp, hb]
    exact ⟨hnd, hinv⟩
  have hb' : st.books.find? (fun bk => bk.id == b) = some book := hb
  have hbook_mem : book ∈ st.books := List.mem_of_find?_eq_some hb'
  have hbid := List.find?_some hb'
  by_cases hav : book.available_copies ≤ 0
  · simp only [borrow_book_by_patron, hp, hb, if_pos hav]
    exact ⟨hnd, hinv⟩
  by_cases hcnt : 5 ≤ get_patron_borrow_count st p
  · simp only [borrow_book_by_patron, hp, hb, if_neg hav, if_pos hcnt]
    exact ⟨hnd, hinv⟩
  by_cases hdup : (get_borrow_record st p b).isSome = true
  · simp only [borrow_book_by_patron, hp, hb, if_neg hav, if_neg hcnt,
      if_pos hdup]
    exact ⟨hnd, hinv⟩
  cases hins : fl.insert_ok with
  | false =>
    simp only [borrow_book_by_patron, hp, hb, if_neg hav, if_neg hcnt,
      if_neg hdup, hins]
    exact ⟨hnd, hinv⟩
  | true =>
  cases hup : fl.update_avail_ok with
  | true =>
    have hstate : (borrow_book_by_patron fl st p b now).state =
        update_book_availability
          (insert_borrow_record st p b now (now + 14 * 86400)) b (-1) := by
      simp [borrow_book_by_patron, hp, hb, hav, hcnt, hdup, hins, hup]
    rw [hstate]
    constructor
    · show ((update_book_availability
        (insert_borrow_record st p b now (now + 14 * 86400)) b
          (-1)).books.map (fun bk => bk.id)).Nodup
      rw [books_id_map_update]
      exact hnd
    · intro bk' hm
      have hm' : bk' ∈ st.books.map (fun bk =>
          if (bk.id == b) = true then
            { bk with available_copies := bk.available_copies + (-1) }
          else bk) := hm
      obtain ⟨bk, hbk, rfl⟩ := List.mem_map.mp hm'
      have hrecs : (update_book_availability
          (insert_borrow_record st p b now (now + 14 * 86400)) b
            (-1)).records =
          st.records ++
            [{ patron_id := p, book_id := b, borrow_date := now,
               due_date := some (now + 14 * 86400),
               return_date := none }] := rfl
      rw [hrecs]
      obtain ⟨hpos, hcount⟩ := hinv bk hbk
      by_cases hid : (bk.id == b) = true
      · have hbkbook : bk = book := by
          apply List.inj_on_of_nodup_map hnd hbk hbook_mem
          have h1 : bk.id = b := by simpa [beq_iff_eq] using hid
          have h2 : book.id = b := by simpa [beq_iff_eq] using hbid
          rw [h1, h2]
        have hgb : (if (bk.id == b) = true then
            { bk with available_copies := bk.available_copies + (-1) }
          else bk) =
            { bk with available_copies := bk.available_copies + (-1) } :=
          if_pos hid
        rw [hgb, activeCountBook_append]
        have hbeq : ((b == bk.id) &&
            ((none : Option Int) == none)) = true := by
          have h1 : bk.id = b := by simpa [beq_iff_eq] using hid
          simp [h1]
        constructor
        · show 0 ≤ bk.available_copies + (-1)
          have h3 : bk.available_copies = book.available_copies := by
            rw [hbkbook]
          omega
        · show ((activeCountBook st.records bk.id +
              if ((b == bk.id) &&
                ((none : Option Int) == none)) = true
              then 1 else 0 : Nat) : Int) ≤
            bk.total_copies - (bk.available_copies + (-1))
          rw [hbeq, if_pos rfl]
          push_cast
          omega
      · have hgb : (if (bk.id == b) = true then
            { bk with available_copies := bk.available_copies + (-1) }
          else bk) = bk := if_neg hid
        rw [hgb, activeCountBook_append]
        have hbeq : ((b == bk.id) &&
            ((none : Option Int) == none)) = false := by
          have h1 : ¬bk.id = b := by simpa [beq_iff_eq] using hid
          have h2 : ¬b = bk.id := fun hh => h1 hh.symm
          simp [h2]
        rw [hbeq]
        refine ⟨hpos, ?_⟩
        show ((activeCountBook st.records bk.id +
            if false = true then 1 else 0 : Nat) : Int) ≤
          bk.total_copies - bk.available_copies
        simp only [Bool.false_eq_true, if_false]
        push_cast
        omega
  | false =>
  have hretok : fl.update_return_ok = true := by
    rw [hup] at hc
    simpa using hc
  have hstate : (borrow_book_by_patron fl st p b now).state =
      update_borrow_record_return_date
        (insert_borrow_record st p b now (now + 14 * 86400)) p b now := by
    simp [borrow_book_by_patron, hp, hb, hav, hcnt, hdup, hins, hup, hretok]
  rw [hstate]
  constructor
  · exact hnd
  · intro bk hbk
    have hbk' : bk ∈ st.books := hbk
    obtain ⟨hpos, hcount⟩ := hinv bk hbk'
    refine ⟨hpos, ?_⟩
    have hrec2 : (update_borrow_record_return_date
        (insert_borrow_record st p b now (now + 14 * 86400)) p b
          now).records =
        (st.records ++
          [({ patron_id := p, book_id := b, borrow_date := now,
              due_date := some (now + 14 * 86400),
              return_date := none } : BorrowRecord)]).map
          (fun r => if recordActiveFor p b r then
            { r with return_date := some now } else r) := rfl
    rw [hrec2, activeCountBook_close_eq]
    have hone : ([({ patron_id := p, book_id := b, borrow_date := now,
                     due_date := some (now + 14 * 86400),
                     return_date := none } : BorrowRecord)]).countP
          (fun r => (r.book_id == bk.id && r.return_date == none) &&
            !recordActiveFor p b r) = 0 := by
      simp [recordActiveFor]
    have h2 : st.records.countP
        (fun r => (r.book_id == bk.id && r.return_date == none) &&
          !recordActiveFor p b r) ≤ activeCountBook st.records bk.id :=
      List.countP_mono_left (fun x _ hx => by
        simp only [Bool.and_eq_true] at hx ⊢
        exact hx.1)
    rw [List.countP_append, hone]
    have h3 : st.records.countP
        (fun r => (r.book_id == bk.id && r.return_date == none) &&
          !recordActiveFor p b r) + 0 ≤ activeCountBook st.records bk.id :=
      by omega
    calc ((st.records.countP
          (fun r => (r.book_id == bk.id && r.return_date == none) &&
            !recordActiveFor p b r) + 0 : Nat) : Int) ≤
        (activeCountBook st.records bk.id : Int) := by exact_mod_cast h3
      _ ≤ bk.total_copies - bk.available_copies := hcount

/-- A return operation preserves the state invariant. -/
lemma stateInv_return (fl : DbFlags) (st : LibraryState) (p : String)
    (b : Int) (now : Int) (h : StateInv st) :
    StateInv (return_book_by_patron fl st p b now).state := by
  obtain ⟨hnd, hinv⟩ := h
  cases hp : patronIdOk p with
  | false =>
    simp only [return_book_by_patron, hp]
    exact ⟨hnd, hinv⟩
  | true =>
  cases hz : ((b : Int) == 0) with
  | true =>
    have hs : (return_book_by_patron fl st p b now).state = st := by
      simp [return_book_by_patron, hp, hz]
    rw [hs]
    exact ⟨hnd, hinv⟩
  | false =>
  rcases hb : get_book_by_id st b with _ | book
  · by_cases h13 : ((toString b).length == 13) = true
    · have hs : (return_book_by_patron fl st p b now).state = st := by
        simp [return_book_by_patron, hp, hz, hb, h13]
      rw [hs]
      exact ⟨hnd, hinv⟩
    · have hs : (return_book_by_patron fl st p b now).state = st := by
        simp [return_book_by_patron, hp, hz, hb, h13]
      rw [hs]
      exact ⟨hnd, hinv⟩
  have hb' : st.books.find? (fun bk => bk.id == b) = some book := hb
  have hbook_mem : book ∈ st.books := List.mem_of_find?_eq_some hb'
  have hbid := List.find?_some hb'
  rcases hrec : get_borrow_record st p b with _ | rec
  · have hs : (return_book_by_patron fl st p b now).state = st := by
      simp [return_book_by_patron, hp, hz, hb, hrec]
    rw [hs]
    exact ⟨hnd, hinv⟩
  have hrec' : st.records.find? (recordActiveFor p b) = some rec := hrec
  have hrmem : rec ∈ st.records := List.mem_of_find?_eq_some hrec'
  have hract := List.find?_some hrec'
  cases hret : fl.update_return_ok with
  | false =>
    have hs : (return_book_by_patron fl st p b now).state = st := by
      simp [return_book_by_patron, hp, hz, hb, hrec, hret]
    rw [hs]
    exact ⟨hnd, hinv⟩
  | true =>
  cases hup : fl.update_avail_ok with
  | false =>
    have hs : (return_book_by_patron fl st p b now).state =
        update_borrow_record_return_date st p b now := by
      simp [return_book_by_patron, hp, hz, hb, hrec, hret, hup]
    rw [hs]
    refine ⟨hnd, ?_⟩
    intro bk hbk
    have hbk' : bk ∈ st.books := hbk
    obtain ⟨hpos, hcount⟩ := hinv bk hbk'
    refine ⟨hpos, ?_⟩
    have hle := activeCountBook_close_le st.records p b now bk.id
    calc ((activeCountBook (st.records.map
          (fun r => if recordActiveFor p b r then
            { r with return_date := some now } else r)) bk.id : Nat) : Int) ≤
        (activeCountBook st.records bk.id : Int) := by exact_mod_cast hle
      _ ≤ bk.total_copies - bk.available_copies := hcount
  | true =>
  have hs : (return_book_by_patron fl st p b now).state =
      update_book_availability
        (update_borrow_record_return_date st p b now) b 1 := by
    simp [return_book_by_patron, hp, hz, hb, hrec, hret, hup]
    try split <;> rfl
  rw [hs]
  constructor
  · show ((update_book_availability
      (update_borrow_record_return_date st p b now) b
        1).books.map (fun bk => bk.id)).Nodup
    rw [books_id_map_update]
    exact hnd
  · intro bk' hm
    have hm' : bk' ∈ st.books.map (fun bk =>
        if (bk.id == b) = true then
          { bk with available_copies := bk.available_copies + 1 }
        else bk) := hm
    obtain ⟨bk, hbk, rfl⟩ := List.mem_map.mp hm'
    obtain ⟨hpos, hcount⟩ := hinv bk hbk
    by_cases hid : (bk.id == b) = true
    · have h1 : bk.id = b := by simpa [beq_iff_eq] using hid
      have hgb : (if (bk.id == b) = true then
          { bk with available_copies := bk.available_copies + 1 }
        else bk) =
          { bk with available_copies := bk.available_copies + 1 } :=
        if_pos hid
      rw [hgb]
      constructor
      · show 0 ≤ bk.available_copies + 1
        omega
      · show ((activeCountBook (st.records.map
            (fun r => if recordActiveFor p b r then
              { r with return_date := some now } else r)) bk.id : Nat) :
              Int) ≤
          bk.total_copies - (bk.available_copies + 1)
        have hlt := activeCountBook_close_lt st.records p b now rec
          hrmem hract
        rw [h1]
        have hlt' : ((activeCountBook (st.records.map
            (fun r => if recordActiveFor p b r then
              { r with return_date := some now } else r)) b : Nat) : Int) <
            (activeCountBook st.records b : Int) := by exact_mod_cast hlt
        have hcount' : ((activeCountBook st.records b : Nat) : Int) ≤
            bk.total_copies - bk.available_copies := by
          rw [← h1]
          exact hcount
        omega
    · have hgb : (if (bk.id == b) = true then
          { bk with available_copies := bk.available_copies + 1 }
        else bk) = bk := if_neg hid
      rw [hgb]
      refine ⟨hpos, ?_⟩
      have hle := activeCountBook_close_le st.records p b now bk.id
      calc ((activeCountBook (st.records.map
          (fun r => if recordActiveFor p b r then
            { r with return_date := some now } else r)) bk.id : Nat) :
            Int) ≤
          (activeCountBook st.records bk.id : Int) := by exact_mod_cast hle
        _ ≤ bk.total_copies - bk.available_copies := hcount

/-- One compensable operation preserves the state invariant. -/
lemma stateInv_applyOp (st : LibraryState) (op : LibOp) (h : StateInv st)
    (hc : opCompensable op = true) : StateInv (applyOp st op) := by
  cases op with
  | borrow fl p b now => exact stateInv_borrow fl st p b now h hc
  | ret fl p b now => exact stateInv_return fl st p b now h

/-- Every compensable operation sequence preserves the state
invariant. -/
lemma stateInv_runOps : ∀ (ops : List LibOp) (st : LibraryState),
    StateInv st → ops.all opCompensable = true → StateInv (runOps st ops)
  | [], _, h, _ => h
  | op :: rest, st, h, hall => by
    simp only [List.all_cons, Bool.and_eq_true] at hall
    rw [runOps]
    exact stateInv_runOps rest _ (stateInv_applyOp st op h hall.1) hall.2

/-- The state invariant yields the availability bounds. -/
lemma boundsOk_of_stateInv (st : LibraryState) (h : StateInv st) :
    BoundsOk st := by
  intro b hb
  obtain ⟨h1, h2⟩ := h.2 b hb
  have h3 : (0 : Int) ≤ (activeCountBook st.records b.id : Int) :=
    Int.natCast_nonneg _
  exact ⟨h1, by omega⟩

/-- C6 (amended): from a state with unique book ids, non-negative
availability and every active borrow record matched by a missing copy,
every sequence of borrow and return operations in which a failing
availability decrement always has a successful compensating return-date
update preserves that validity, and with it the invariant
0 ≤ available_copies ≤ total_copies, at every step. -/
theorem c6_availability_invariant (st : LibraryState) (h : StateInv st)
    (ops : List LibOp) (hops : ops.all opCompensable = true) :
    StateInv (runOps st ops) ∧ BoundsOk (runOps st ops) :=
  have hs := stateInv_runOps ops st h hops
  ⟨hs, boundsOk_of_stateInv _ hs⟩

/-- Witness for C6 (amended): a concrete state and operation sequence. -/
theorem c6_availability_invariant_witness :
    StateInv stOnTime ∧
    ([LibOp.borrow allOk "123456" 2 0,
      LibOp.ret allOk "123456" 1 5].all opCompensable = true) ∧
    (StateInv (runOps stOnTime
      [LibOp.borrow allOk "123456" 2 0,
       LibOp.ret allOk "123456" 1 5]) ∧
     BoundsOk (runOps stOnTime
      [LibOp.borrow allOk "123456" 2 0,
       LibOp.ret allOk "123456" 1 5])) :=
  ⟨by decide, by decide,
   c6_availability_invariant stOnTime (by decide) _ (by decide)⟩

/-- A single-copy book with its one copy on the shelf. -/
def bookSmall : Book :=
  { id := 1, title := "B", author := "A", isbn := "1234567890123",
    total_copies := 1, available_copies := 1 }

/-- bookSmall fully on the shelf next to a stray active loan of it: the
claim-side validity accepts this state. -/
def stStray : LibraryState := { books := [bookSmall], records := [recOnTime] }

/-- The record left behind when a borrow on the empty library suffers a
failing availability update and a failing compensation. -/
def recMid : BorrowRecord :=
  { patron_id := "123456", book_id := 1, borrow_date := 0,
    due_date := some 1209600, return_date := none }

/-- The state after that failed borrow. -/
def stMid : LibraryState := { books := [bookSmall], records := [recMid] }

/-- Fee quote of the stray loan at its return instant. -/
lemma feeMid_eval :
    calculate_late_fee_for_book (some recMid) 5 = ⟨0, 0⟩ := by
  show feeFromDue (some 1209600) 5 = ⟨0, 0⟩
  have hdays : max (0 : Int) (((5 : Int) - 1209600).fdiv 86400) = 0 := by
    decide
  simp only [feeFromDue, hdays]
  norm_num [round2, round_eq, min_def, max_def]

/-- Returning the stray loan pushes availability above the total. -/
lemma return_stray_eval :
    return_book_by_patron allOk stStray "123456" 1 0 =
      ⟨true, "Book returned: \"B\". No late fee.",
        { books := [{ id := 1, title := "B", author := "A",
                      isbn := "1234567890123", total_copies := 1,
                      available_copies := 2 }],
          records := [{ patron_id := "123456", book_id := 1,
                        borrow_date := 0, due_date := some 100,
                        return_date := some 0 }] }⟩ := by
  have hrec : get_borrow_record stStray "123456" 1 = some recOnTime := by
    decide
  have hbk : get_book_by_id stStray 1 = some bookSmall := by decide
  have hpat : patronIdOk "123456" = true := by decide
  simp only [return_book_by_patron, hrec, hbk, hpat, feeOnTime_eval]
  norm_num
  decide

/-- Returning the failed-borrow record pushes availability above the
total as well. -/
lemma return_mid_eval :
    return_book_by_patron allOk stMid "123456" 1 5 =
      ⟨true, "Book returned: \"B\". No late fee.",
        { books := [{ id := 1, title := "B", author := "A",
                      isbn := "1234567890123", total_copies := 1,
                      available_copies := 2 }],
          records := [{ patron_id := "123456", book_id := 1,
                        borrow_date := 0, due_date := some 1209600,
                        return_date := some 5 }] }⟩ := by
  have hrec : get_borrow_record stMid "123456" 1 = some recMid := by decide
  have hbk : get_book_by_id stMid 1 = some bookSmall := by decide
  have hpat : patronIdOk "123456" = true := by decide
  simp only [return_book_by_patron, hrec, hbk, hpat, feeMid_eval]
  norm_num
  decide

/-- Counterexample to C6 as stated: first, a state the claimed validity
accepts (every missing copy matched by an active record, vacuously) on
which a single successful return drives available_copies above
total_copies; second, even from a strongly valid state, a borrow whose
availability update and compensation both fail, followed by a return,
drives available_copies above total_copies. -/
theorem c6_invariant_counterexample :
    (claimValid stStray ∧
      (return_book_by_patron allOk stStray "123456" 1 0).ok = true ∧
      ¬ BoundsOk (return_book_by_patron allOk stStray "123456" 1 0).state) ∧
    (StateInv { books := [bookSmall], records := [] } ∧
      claimValid { books := [bookSmall], records := [] } ∧
      ¬ BoundsOk (runOps { books := [bookSmall], records := [] }
        [LibOp.borrow ⟨true, false, false⟩ "123456" 1 0,
         LibOp.ret allOk "123456" 1 5])) := by
  refine ⟨⟨by decide, ?_, ?_⟩, by decide, by decide, ?_⟩
  · rw [return_stray_eval]
  · rw [return_stray_eval]
    decide
  · have h1 : applyOp { books := [bookSmall], records := [] }
        (LibOp.borrow ⟨true, false, false⟩ "123456" 1 0) = stMid := by
      decide
    have h2 : runOps { books := [bookSmall], records := [] }
        [LibOp.borrow ⟨true, false, false⟩ "123456" 1 0,
         LibOp.ret allOk "123456" 1 5] =
        applyOp (applyOp { books := [bookSmall], records := [] }
          (LibOp.borrow ⟨true, false, false⟩ "123456" 1 0))
          (LibOp.ret allOk "123456" 1 5) := rfl
    rw [h2, h1]
    have h3 : applyOp stMid (LibOp.ret allOk "123456" 1 5) =
        (return_book_by_patron allOk stMid "123456" 1 5).state := rfl
    rw [h3, return_mid_eval]
    decide

/-- When every record of the list has its book, the inner join drops
nothing: the first components of the joined rows are the list itself. -/
lemma filterMap_join_fst (st : LibraryState) :
    ∀ (l : List BorrowRecord),
      (∀ r ∈ l, (get_book_by_id st r.book_id).isSome = true) →
      (l.filterMap (fun r => (get_book_by_id st r.book_id).map
        (fun b => (r, b)))).map (fun rb => rb.1) = l
  | [], _ => rfl
  | r :: tl, h => by
    have hr := h r (List.mem_cons_self r tl)
    obtain ⟨bk, hbk⟩ := Option.isSome_iff_exists.mp hr
    simp only [List.filterMap_cons, hbk, Option.map_some', List.map_cons]
    rw [filterMap_join_fst st tl
      (fun x hx => h x (List.mem_cons_of_mem r hx))]

/-- C9: for a valid patron id, the status report exists, its total late
fees are the 2-decimal rounding of the sum of its active loans' current
fees, its history lists exactly the patron's records (given the
referential integrity of the data model: every record's book exists),
sorted by borrow date descending, and each history entry's end-of-period
fee is computed against return_date when the record is closed and
against the current instant otherwise. -/
theorem c9_patron_status_report (st : LibraryState) (p : String)
    (now : Int) (hp : patronIdOk p = true)
    (href : ∀ r ∈ st.records, r.patron_id = p →
      (get_book_by_id st r.book_id).isSome = true) :
    get_patron_status_report st p now =
      some { current_loans := current_loans_of st p now,
             current_count := (current_loans_of st p now).length,
             total_late_fees := round2 (((current_loans_of st p now).map
               (fun x => x.current_fee)).sum),
             history := history_of st p now } ∧
    ((history_of st p now).map (fun e =>
        (e.book_id, e.borrow_date, e.due_date, e.return_date))).Perm
      ((st.records.filter (fun r => r.patron_id == p)).map (fun r =>
        (r.book_id, r.borrow_date, r.due_date, r.return_date))) ∧
    (history_of st p now).Pairwise
      (fun e1 e2 => e2.borrow_date ≤ e1.borrow_date) ∧
    ∀ e ∈ history_of st p now,
      e.late_fee_at_end =
        (feeFromDue e.due_date (e.return_date.getD now)).fee_amount ∧
      e.days_overdue_at_end =
        (feeFromDue e.due_date (e.return_date.getD now)).days_overdue := by
  have hmem : ∀ r ∈ List.insertionSort borrowDesc
      (st.records.filter (fun r => r.patron_id == p)),
      (get_book_by_id st r.book_id).isSome = true := by
    intro r hr
    have hr2 : r ∈ st.records.filter (fun r => r.patron_id == p) :=
      (List.perm_insertionSort borrowDesc _).mem_iff.mp hr
    have hr3 := List.mem_filter.mp hr2
    exact href r hr3.1 (by simpa [beq_iff_eq] using hr3.2)
  have hfst : (history_rows st p).map (fun rb => rb.1) =
      List.insertionSort borrowDesc
        (st.records.filter (fun r => r.patron_id == p)) :=
    filterMap_join_fst st _ hmem
  refine ⟨?_, ?_, ?_, ?_⟩
  · simp [get_patron_status_report, hp]
  · have h1 : (history_of st p now).map (fun e =>
        (e.book_id, e.borrow_date, e.due_date, e.return_date)) =
        (List.insertionSort borrowDesc
          (st.records.filter (fun r => r.patron_id == p))).map (fun r =>
            (r.book_id, r.borrow_date, r.due_date, r.return_date)) := by
      rw [history_of, List.map_map]
      have h2 : ((fun e : HistoryEntry =>
          (e.book_id, e.borrow_date, e.due_date, e.return_date)) ∘
          (fun rb : BorrowRecord × Book =>
            let endInstant := rb.1.return_date.getD now
            let fee_end := feeFromDue rb.1.due_date endInstant
            ({ book_id := rb.1.book_id, title := rb.2.title,
               author := rb.2.author, isbn := rb.2.isbn,
               borrow_date := rb.1.borrow_date, due_date := rb.1.due_date,
               return_date := rb.1.return_date,
               days_overdue_at_end := fee_end.days_overdue,
               late_fee_at_end := fee_end.fee_amount } : HistoryEntry))) =
          ((fun r : BorrowRecord =>
            (r.book_id, r.borrow_date, r.due_date, r.return_date)) ∘
            (fun rb : BorrowRecord × Book => rb.1)) := rfl
      rw [h2, ← List.map_map, hfst]
    rw [h1]
    exact (List.perm_insertionSort borrowDesc _).map _
  · have hsorted : List.Sorted borrowDesc (List.insertionSort borrowDesc
        (st.records.filter (fun r => r.patron_id == p))) :=
      List.sorted_insertionSort borrowDesc _
    rw [history_of, List.pairwise_map, history_rows,
      List.pairwise_filterMap]
    apply List.Pairwise.imp ?_ hsorted
    intro a a' hle rb hrb rb' hrb'
    rw [Option.mem_def, Option.map_eq_some'] at hrb hrb'
    obtain ⟨bk, _, rfl⟩ := hrb
    obtain ⟨bk', _, rfl⟩ := hrb'
    exact hle
  · intro e he
    obtain ⟨rb, _, rfl⟩ := List.mem_map.mp he
    exact ⟨rfl, rfl⟩

/-- A returned loan of bookB, borrowed later than recOnTime. -/
def recClosed : BorrowRecord :=
  { patron_id := "123456", book_id := 1, borrow_date := 5,
    due_date := some 50, return_date := some 60 }

/-- Library with one active and one returned loan of the same patron. -/
def stHist : LibraryState :=
  { books := [bookB], records := [recOnTime, recClosed] }

/-- Witness for C9: a patron with one active and one returned loan. -/
theorem c9_patron_status_report_witness :
    patronIdOk "123456" = true ∧
    (∀ r ∈ stHist.records, r.patron_id = "123456" →
      (get_book_by_id stHist r.book_id).isSome = true) ∧
    (get_patron_status_report stHist "123456" 0 =
      some { current_loans := current_loans_of stHist "123456" 0,
             current_count := (current_loans_of stHist "123456" 0).length,
             total_late_fees := round2 (((current_loans_of stHist
               "123456" 0).map (fun x => x.current_fee)).sum),
             history := history_of stHist "123456" 0 } ∧
     ((history_of stHist "123456" 0).map (fun e =>
        (e.book_id, e.borrow_date, e.due_date, e.return_date))).Perm
      ((stHist.records.filter (fun r => r.patron_id == "123456")).map
        (fun r => (r.book_id, r.borrow_date, r.due_date, r.return_date))) ∧
     (history_of stHist "123456" 0).Pairwise
       (fun e1 e2 => e2.borrow_date ≤ e1.borrow_date) ∧
     ∀ e ∈ history_of stHist "123456" 0,
       e.late_fee_at_end =
         (feeFromDue e.due_date (e.return_date.getD 0)).fee_amount ∧
       e.days_overdue_at_end =
         (feeFromDue e.due_date (e.return_date.getD 0)).days_overdue) := by
  have hp : patronIdOk "123456" = true := by decide
  have href : ∀ r ∈ stHist.records, r.patron_id = "123456" →
      (get_book_by_id stHist r.book_id).isSome = true := by decide
  exact ⟨hp, href, c9_patron_status_report stHist "123456" 0 hp href⟩
